import Mathlib

/-!
Shallow embedding of the movie-catalog CRUD application (`app.py`): the
SQLAlchemy row schema, the Flask-RESTful request parsers, the per-entity
resource handlers, and the scoped-session manager.  The store is modelled as
four lists of rows (SQLite tables in rowid order); SQLAlchemy queries become
list operations (`first()` is `List.find?`, `one()` is `queryOne`, which
distinguishes the no-row and multiple-row outcomes exactly as the ORM does).
SQLite runs with foreign-key enforcement off (the application never issues
`PRAGMA foreign_keys`), so the embedding performs only the checks the
application code performs.  Floats (the `rating` column) are carried as
rationals; no arithmetic is done on them, they are only stored and echoed.
-/

/-- A scalar JSON value, as delivered by `request.json` for a field of the
request body.  The application's parsers only declare scalar field types
(`int`, `float`, `str`), so nested objects/arrays are not modelled. -/
inductive JVal where
  | jInt (n : Int)
  | jFloat (q : Rat)
  | jStr (s : String)
deriving DecidableEq, Repr

/-- A JSON object: an association list of field names to scalar values. -/
abbrev JObj := List (String × JVal)

/-- A JSON request body (`location='json'` in every parser argument). -/
abbrev Req := JObj

/-- A response body as built by the handlers: an entity object, an array of
entity objects, the framework's 400 payload produced when `parse_args`
aborts, an uncaught-exception (HTTP 500) payload, or the empty body that the
WSGI layer sends for bodiless status codes. -/
inductive Body where
  | obj (o : JObj)
  | arr (rows : List JObj)
  | validationErr
  | serverError
  | empty
deriving DecidableEq, Repr

/-- A handler result: HTTP status code plus body. -/
structure Resp where
  status : Nat
  body : Body
deriving DecidableEq, Repr

/-- The rows of an `arr` body (used to state what a list endpoint shows). -/
def Body.rows : Body → List JObj
  | .arr rows => rows
  | _ => []

/-- Werkzeug sends an empty body on the wire for status 204, 304 and 1xx
(`Response.get_app_iter` replaces the app iterator with an empty one), so a
204 response reaches the client with no body regardless of what the handler
returned.  Modelled from that framework behaviour. -/
def wireBody (r : Resp) : Body :=
  if r.status = 204 ∨ r.status = 304 ∨ (100 ≤ r.status ∧ r.status < 200)
  then Body.empty else r.body

/-! ## Schema (`class Movie/Links/Ratings/Tags` in app.py) -/

/-- `movies` row: `movieId` primary key (caller supplied), `title`, `genres`. -/
structure Movie where
  movieId : Int
  title : String
  genres : String
deriving DecidableEq, Repr

/-- `links` row: generated `id`, `movieId` (FK, unique), `imdbId`, `tmdbId`. -/
structure Links where
  id : Nat
  movieId : Int
  imdbId : String
  tmdbId : String
deriving DecidableEq, Repr

/-- `ratings` row: generated `id`, `userId`, `movieId` (FK), `rating`,
`timestamp`. -/
structure Ratings where
  id : Nat
  userId : Int
  movieId : Int
  rating : Rat
  timestamp : Int
deriving DecidableEq, Repr

/-- `tags` row: generated `id`, `userId`, `movieId` (FK), `tag`, `timestamp`. -/
structure Tags where
  id : Nat
  userId : Int
  movieId : Int
  tag : String
  timestamp : Int
deriving DecidableEq, Repr

/-- `Movie.to_dict`. -/
def Movie.to_dict (m : Movie) : JObj :=
  [("movieId", JVal.jInt m.movieId), ("title", JVal.jStr m.title),
   ("genres", JVal.jStr m.genres)]

/-- `Links.to_dict` (note: the generated `id` is not exposed). -/
def Links.to_dict (l : Links) : JObj :=
  [("movieId", JVal.jInt l.movieId), ("imdbId", JVal.jStr l.imdbId),
   ("tmdbId", JVal.jStr l.tmdbId)]

/-- `Ratings.to_dict` (note: the generated `id` is not exposed). -/
def Ratings.to_dict (r : Ratings) : JObj :=
  [("userId", JVal.jInt r.userId), ("movieId", JVal.jInt r.movieId),
   ("rating", JVal.jFloat r.rating), ("timestamp", JVal.jInt r.timestamp)]

/-- `Tags.to_dict` (note: the generated `id` is not exposed). -/
def Tags.to_dict (t : Tags) : JObj :=
  [("userId", JVal.jInt t.userId), ("movieId", JVal.jInt t.movieId),
   ("tag", JVal.jStr t.tag), ("timestamp", JVal.jInt t.timestamp)]

/-- The store: the four SQLite tables, rows in rowid (insertion) order. -/
structure DB where
  movies : List Movie
  links : List Links
  ratings : List Ratings
  tags : List Tags
deriving DecidableEq, Repr

/-- The empty store, as created by `Base.metadata.create_all` on a fresh
database. -/
def emptyDB : DB := ⟨[], [], [], []⟩

/-- SQLite assigns a new row the rowid `max(existing rowids) + 1` (one more
than the largest id in the table, or 1 for an empty table). -/
def newRowId (ids : List Nat) : Nat := ids.foldr max 0 + 1

/-- Outcome of SQLAlchemy's `Query.one()`: exactly one matching row, no
matching row (`NoResultFound`), or several (`MultipleResultsFound`). -/
inductive OneResult (α : Type) where
  | found (x : α)
  | noResult
  | multipleResults
deriving DecidableEq, Repr

/-- `query(T).filter(pred).one()`. -/
def queryOne {α : Type} (l : List α) (p : α → Bool) : OneResult α :=
  match l.filter p with
  | [] => OneResult.noResult
  | [x] => OneResult.found x
  | _ => OneResult.multipleResults

/-! ## Request parsing (`reqparse.RequestParser` with `required=True`)

`parse_args` looks each declared field up in the JSON body and applies the
declared Python type as a conversion (`int(value)`, `float(value)`,
`str(value)`); a missing field or a failed conversion makes `parse_args`
abort the request with status 400 before the handler body runs.  The
conversion coerces across scalar kinds exactly as the Python constructors
do: `int` truncates a float toward zero and parses an integer literal from
a string, `float` widens an int and parses a decimal literal from a string,
`str` renders numbers as text. -/

/-- Does the character string consist of one or more ASCII digits? -/
def allDigits (s : List Char) : Bool :=
  match s with
  | [] => false
  | _ => s.all (fun c => c.isDigit)

/-- Digits to a natural number (most significant first). -/
def digitsToNat (s : List Char) : Nat :=
  s.foldl (fun acc c => acc * 10 + (c.toNat - '0'.toNat)) 0

/-- `int(s)` for a string: optional sign followed by digits.  (Python also
tolerates surrounding whitespace and digit-group underscores; those inputs
do not occur in this development.) -/
def pyIntOfString (s : String) : Option Int :=
  match s.toList with
  | '-' :: rest => if allDigits rest then some (-(digitsToNat rest : Int)) else none
  | '+' :: rest => if allDigits rest then some ((digitsToNat rest : Int)) else none
  | l => if allDigits l then some ((digitsToNat l : Int)) else none

/-- `float(s)` for a string: optional sign, digits, optional fractional
part.  (Exponent notation and `inf`/`nan` are not modelled; they do not
occur in this development.) -/
def pyFloatOfString (s : String) : Option Rat :=
  let body : List Char → Option Rat := fun l =>
    match l.splitOn '.' with
    | [ip] => if allDigits ip then some ((digitsToNat ip : Rat)) else none
    | [ip, fp] =>
        if allDigits ip ∧ allDigits fp then
          some ((digitsToNat ip : Rat) + (digitsToNat fp : Rat) / ((10 : Rat) ^ fp.length))
        else none
    | _ => none
  match s.toList with
  | '-' :: rest => (body rest).map (fun q => -q)
  | '+' :: rest => body rest
  | l => body l

/-- The conversion a `type=int` parser argument applies to a JSON value:
`int(value)`.  A float truncates toward zero; a string must be an integer
literal. -/
def pyInt : JVal → Option Int
  | JVal.jInt n => some n
  | JVal.jFloat q => some (q.num.tdiv q.den)
  | JVal.jStr s => pyIntOfString s

/-- The conversion a `type=float` parser argument applies: `float(value)`. -/
def pyFloat : JVal → Option Rat
  | JVal.jInt n => some (n : Rat)
  | JVal.jFloat q => some q
  | JVal.jStr s => pyFloatOfString s

/-- The conversion a `type=str` parser argument applies: `str(value)`.
(Int rendering matches Python; the text Python produces for a float is a
shortest-roundtrip decimal, rendered here from the rational stand-in —
no claim depends on this rendering.) -/
def pyStr : JVal → Option String
  | JVal.jStr s => some s
  | JVal.jInt n => some (toString n)
  | JVal.jFloat q => some (toString q.num ++ "/" ++ toString q.den)

/-- Field lookup in the JSON body (`location='json'`); `none` means the
required field is missing and `parse_args` aborts with 400. -/
def jsonField (req : Req) (name : String) : Option JVal :=
  (req.find? (fun p => p.1 == name)).map (fun p => p.2)

/-- Parsed arguments of `movie_parser`. -/
structure MovieArgs where
  movieId : Int
  title : String
  genres : String
deriving DecidableEq, Repr

/-- `movie_parser.parse_args()`: required `movieId : int`, `title : str`,
`genres : str`. -/
def parseMovieArgs (req : Req) : Option MovieArgs := do
  let mid ← pyInt (← jsonField req "movieId")
  let t ← pyStr (← jsonField req "title")
  let g ← pyStr (← jsonField req "genres")
  pure ⟨mid, t, g⟩

/-- Parsed arguments of `links_parser`. -/
structure LinkArgs where
  movieId : Int
  imdbId : String
  tmdbId : String
deriving DecidableEq, Repr

/-- `links_parser.parse_args()`: required `movieId : int`, `imdbId : str`,
`tmdbId : str`. -/
def parseLinkArgs (req : Req) : Option LinkArgs := do
  let mid ← pyInt (← jsonField req "movieId")
  let i ← pyStr (← jsonField req "imdbId")
  let t ← pyStr (← jsonField req "tmdbId")
  pure ⟨mid, i, t⟩

/-- Parsed arguments of `ratings_parser`. -/
structure RatingArgs where
  userId : Int
  movieId : Int
  rating : Rat
  timestamp : Int
deriving DecidableEq, Repr

/-- `ratings_parser.parse_args()`: required `userId : int`, `movieId : int`,
`rating : float`, `timestamp : int`. -/
def parseRatingArgs (req : Req) : Option RatingArgs := do
  let u ← pyInt (← jsonField req "userId")
  let mid ← pyInt (← jsonField req "movieId")
  let r ← pyFloat (← jsonField req "rating")
  let ts ← pyInt (← jsonField req "timestamp")
  pure ⟨u, mid, r, ts⟩

/-- Parsed arguments of `tags_parser`. -/
structure TagArgs where
  userId : Int
  movieId : Int
  tag : String
  timestamp : Int
deriving DecidableEq, Repr

/-- `tags_parser.parse_args()`: required `userId : int`, `movieId : int`,
`tag : str`, `timestamp : int`. -/
def parseTagArgs (req : Req) : Option TagArgs := do
  let u ← pyInt (← jsonField req "userId")
  let mid ← pyInt (← jsonField req "movieId")
  let t ← pyStr (← jsonField req "tag")
  let ts ← pyInt (← jsonField req "timestamp")
  pure ⟨u, mid, t, ts⟩

/-- The 400 response Flask-RESTful sends when `parse_args` aborts. -/
def validationResp : Resp := ⟨400, Body.validationErr⟩

/-- A handler's `return {'message': s}, code`. -/
def msgResp (code : Nat) (s : String) : Resp :=
  ⟨code, Body.obj [("message", JVal.jStr s)]⟩

/-! ## Resource handlers (`create_app` in app.py)

Each handler takes the store (plus any path parameter and request body) and
returns the store after the call together with the response.  `parse_args`
runs before the session is opened, so a validation failure returns 400
without touching the store. -/

namespace MoviesList

/-- `MoviesList.get`: list all movies. -/
def get (db : DB) : DB × Resp :=
  (db, ⟨200, Body.arr (db.movies.map Movie.to_dict)⟩)

/-- `MoviesList.post`: create a movie; 409 if the caller-assigned `movieId`
already exists. -/
def post (db : DB) (req : Req) : DB × Resp :=
  match parseMovieArgs req with
  | none => (db, validationResp)
  | some args =>
    let new_movie : Movie := ⟨args.movieId, args.title, args.genres⟩
    if (db.movies.find? (fun m => m.movieId == args.movieId)).isSome then
      (db, msgResp 409 ("Film o ID " ++ toString args.movieId ++ " już istnieje."))
    else
      ({ db with movies := db.movies ++ [new_movie] },
       ⟨201, Body.obj new_movie.to_dict⟩)

end MoviesList

namespace LinksList

/-- `LinksList.get`: list all links (movieId, imdbId, tmdbId columns). -/
def get (db : DB) : DB × Resp :=
  (db, ⟨200, Body.arr (db.links.map Links.to_dict)⟩)

/-- `LinksList.post`: create a link; 409 if a link for that `movieId` exists
(checked first), 400 if the referenced movie does not exist. -/
def post (db : DB) (req : Req) : DB × Resp :=
  match parseLinkArgs req with
  | none => (db, validationResp)
  | some args =>
    if (db.links.find? (fun l => l.movieId == args.movieId)).isSome then
      (db, msgResp 409 ("Link dla filmu o ID " ++ toString args.movieId ++ " już istnieje."))
    else if (db.movies.find? (fun m => m.movieId == args.movieId)).isSome = false then
      (db, msgResp 400 ("Film o ID " ++ toString args.movieId ++ " nie istnieje (Foreign Key Error)."))
    else
      let new_link : Links :=
        ⟨newRowId (db.links.map Links.id), args.movieId, args.imdbId, args.tmdbId⟩
      ({ db with links := db.links ++ [new_link] },
       ⟨201, Body.obj new_link.to_dict⟩)

end LinksList

namespace RatingList

/-- `RatingList.get`: list all ratings. -/
def get (db : DB) : DB × Resp :=
  (db, ⟨200, Body.arr (db.ratings.map Ratings.to_dict)⟩)

/-- `RatingList.post`: create a rating; 400 if the referenced movie does not
exist; the row id is store-generated. -/
def post (db : DB) (req : Req) : DB × Resp :=
  match parseRatingArgs req with
  | none => (db, validationResp)
  | some args =>
    if (db.movies.find? (fun m => m.movieId == args.movieId)).isSome = false then
      (db, msgResp 400 ("Film o ID " ++ toString args.movieId ++ " nie istnieje (Foreign Key Error)."))
    else
      let new_rating : Ratings :=
        ⟨newRowId (db.ratings.map Ratings.id), args.userId, args.movieId,
         args.rating, args.timestamp⟩
      ({ db with ratings := db.ratings ++ [new_rating] },
       ⟨201, Body.obj new_rating.to_dict⟩)

end RatingList

namespace TagList

/-- `TagList.get`: list all tags. -/
def get (db : DB) : DB × Resp :=
  (db, ⟨200, Body.arr (db.tags.map Tags.to_dict)⟩)

/-- `TagList.post`: create a tag; 400 if the referenced movie does not
exist; the row id is store-generated. -/
def post (db : DB) (req : Req) : DB × Resp :=
  match parseTagArgs req with
  | none => (db, validationResp)
  | some args =>
    if (db.movies.find? (fun m => m.movieId == args.movieId)).isSome = false then
      (db, msgResp 400 ("Film o ID " ++ toString args.movieId ++ " nie istnieje (Foreign Key Error)."))
    else
      let new_tag : Tags :=
        ⟨newRowId (db.tags.map Tags.id), args.userId, args.movieId,
         args.tag, args.timestamp⟩
      ({ db with tags := db.tags ++ [new_tag] },
       ⟨201, Body.obj new_tag.to_dict⟩)

end TagList

namespace MovieItem

/-- `MovieItem.get`: fetch one movie by `movieId`; 404 on `NoResultFound`. -/
def get (db : DB) (movie_id : Int) : DB × Resp :=
  match queryOne db.movies (fun m => m.movieId == movie_id) with
  | OneResult.found m => (db, ⟨200, Body.obj m.to_dict⟩)
  | OneResult.noResult =>
      (db, msgResp 404 ("Film o ID " ++ toString movie_id ++ " nie znaleziony."))
  | OneResult.multipleResults => (db, ⟨500, Body.serverError⟩)

/-- `MovieItem.put`: replace `title` and `genres` of the movie addressed by
the path `movieId`; the body's `movieId` is parsed but never applied. -/
def put (db : DB) (movie_id : Int) (req : Req) : DB × Resp :=
  match parseMovieArgs req with
  | none => (db, validationResp)
  | some args =>
    match queryOne db.movies (fun m => m.movieId == movie_id) with
    | OneResult.found m =>
        let m2 : Movie := { m with title := args.title, genres := args.genres }
        ({ db with movies :=
             db.movies.map (fun x => if x.movieId == movie_id then m2 else x) },
         ⟨200, Body.obj m2.to_dict⟩)
    | OneResult.noResult =>
        (db, msgResp 404 ("Film o ID " ++ toString movie_id ++ " nie znaleziony."))
    | OneResult.multipleResults => (db, ⟨500, Body.serverError⟩)

/-- `MovieItem.delete`: delete the movie; the ORM relationship cascade
(`all, delete-orphan`) removes every dependent link, rating and tag whose
`movieId` matches, in the same session. -/
def delete (db : DB) (movie_id : Int) : DB × Resp :=
  match queryOne db.movies (fun m => m.movieId == movie_id) with
  | OneResult.found _ =>
      ({ movies := db.movies.filter (fun m => !(m.movieId == movie_id)),
         links := db.links.filter (fun l => !(l.movieId == movie_id)),
         ratings := db.ratings.filter (fun r => !(r.movieId == movie_id)),
         tags := db.tags.filter (fun t => !(t.movieId == movie_id)) },
       msgResp 204 ("Film o ID " ++ toString movie_id ++ " usunięty."))
  | OneResult.noResult =>
      (db, msgResp 404 ("Film o ID " ++ toString movie_id ++ " nie znaleziony."))
  | OneResult.multipleResults => (db, ⟨500, Body.serverError⟩)

end MovieItem

namespace LinksItem

/-- `LinksItem.get`: fetch one link by `movieId`; 404 on `NoResultFound`. -/
def get (db : DB) (movie_id : Int) : DB × Resp :=
  match queryOne db.links (fun l => l.movieId == movie_id) with
  | OneResult.found l => (db, ⟨200, Body.obj l.to_dict⟩)
  | OneResult.noResult =>
      (db, msgResp 404 ("Link dla filmu o ID " ++ toString movie_id ++ " nie znaleziony."))
  | OneResult.multipleResults => (db, ⟨500, Body.serverError⟩)

/-- `LinksItem.put`: replace `imdbId` and `tmdbId` of the link addressed by
the path `movieId`; the body's `movieId` is parsed but never applied. -/
def put (db : DB) (movie_id : Int) (req : Req) : DB × Resp :=
  match parseLinkArgs req with
  | none => (db, validationResp)
  | some args =>
    match queryOne db.links (fun l => l.movieId == movie_id) with
    | OneResult.found l =>
        let l2 : Links := { l with imdbId := args.imdbId, tmdbId := args.tmdbId }
        ({ db with links :=
             db.links.map (fun x => if x.movieId == movie_id then l2 else x) },
         ⟨200, Body.obj l2.to_dict⟩)
    | OneResult.noResult =>
        (db, msgResp 404 ("Link dla filmu o ID " ++ toString movie_id ++ " nie znaleziony."))
    | OneResult.multipleResults => (db, ⟨500, Body.serverError⟩)

/-- `LinksItem.delete`: delete the link addressed by the path `movieId`. -/
def delete (db : DB) (movie_id : Int) : DB × Resp :=
  match queryOne db.links (fun l => l.movieId == movie_id) with
  | OneResult.found _ =>
      ({ db with links := db.links.filter (fun l => !(l.movieId == movie_id)) },
       msgResp 204 ("Link dla filmu o ID " ++ toString movie_id ++ " usunięty."))
  | OneResult.noResult =>
      (db, msgResp 404 ("Link dla filmu o ID " ++ toString movie_id ++ " nie znaleziony."))
  | OneResult.multipleResults => (db, ⟨500, Body.serverError⟩)

end LinksItem

namespace RatingItem

/-- `RatingItem.get`: fetch one rating by its generated id; 404 on
`NoResultFound`. -/
def get (db : DB) (rating_id : Nat) : DB × Resp :=
  match queryOne db.ratings (fun r => r.id == rating_id) with
  | OneResult.found r => (db, ⟨200, Body.obj r.to_dict⟩)
  | OneResult.noResult =>
      (db, msgResp 404 ("Ocena o ID " ++ toString rating_id ++ " nie znaleziona."))
  | OneResult.multipleResults => (db, ⟨500, Body.serverError⟩)

/-- `RatingItem.put`: replace `userId`, `movieId`, `rating`, `timestamp` of
the rating addressed by its generated id.  No foreign-key check is performed
on the new `movieId` (and SQLite foreign keys are off), so the write commits
even when the referenced movie does not exist. -/
def put (db : DB) (rating_id : Nat) (req : Req) : DB × Resp :=
  match parseRatingArgs req with
  | none => (db, validationResp)
  | some args =>
    match queryOne db.ratings (fun r => r.id == rating_id) with
    | OneResult.found r =>
        let r2 : Ratings :=
          { r with
            userId := args.userId
            movieId := args.movieId
            rating := args.rating
            timestamp := args.timestamp }
        ({ db with ratings :=
             db.ratings.map (fun x => if x.id == rating_id then r2 else x) },
         ⟨200, Body.obj r2.to_dict⟩)
    | OneResult.noResult =>
        (db, msgResp 404 ("Ocena o ID " ++ toString rating_id ++ " nie znaleziona."))
    | OneResult.multipleResults => (db, ⟨500, Body.serverError⟩)

/-- `RatingItem.delete`: delete the rating addressed by its generated id. -/
def delete (db : DB) (rating_id : Nat) : DB × Resp :=
  match queryOne db.ratings (fun r => r.id == rating_id) with
  | OneResult.found _ =>
      ({ db with ratings := db.ratings.filter (fun r => !(r.id == rating_id)) },
       msgResp 204 ("Ocena o ID " ++ toString rating_id ++ " usunięta."))
  | OneResult.noResult =>
      (db, msgResp 404 ("Ocena o ID " ++ toString rating_id ++ " nie znaleziona."))
  | OneResult.multipleResults => (db, ⟨500, Body.serverError⟩)

end RatingItem

namespace TagItem

/-- `TagItem.get`: fetch one tag by its generated id; 404 on
`NoResultFound`. -/
def get (db : DB) (tag_id : Nat) : DB × Resp :=
  match queryOne db.tags (fun t => t.id == tag_id) with
  | OneResult.found t => (db, ⟨200, Body.obj t.to_dict⟩)
  | OneResult.noResult =>
      (db, msgResp 404 ("Tag o ID " ++ toString tag_id ++ " nie znaleziony."))
  | OneResult.multipleResults => (db, ⟨500, Body.serverError⟩)

/-- `TagItem.put`: replace `userId`, `movieId`, `tag`, `timestamp` of the
tag addressed by its generated id.  As for ratings, no foreign-key check is
performed on the new `movieId`. -/
def put (db : DB) (tag_id : Nat) (req : Req) : DB × Resp :=
  match parseTagArgs req with
  | none => (db, validationResp)
  | some args =>
    match queryOne db.tags (fun t => t.id == tag_id) with
    | OneResult.found t =>
        let t2 : Tags :=
          { t with
            userId := args.userId
            movieId := args.movieId
            tag := args.tag
            timestamp := args.timestamp }
        ({ db with tags :=
             db.tags.map (fun x => if x.id == tag_id then t2 else x) },
         ⟨200, Body.obj t2.to_dict⟩)
    | OneResult.noResult =>
        (db, msgResp 404 ("Tag o ID " ++ toString tag_id ++ " nie znaleziony."))
    | OneResult.multipleResults => (db, ⟨500, Body.serverError⟩)

/-- `TagItem.delete`: delete the tag addressed by its generated id. -/
def delete (db : DB) (tag_id : Nat) : DB × Resp :=
  match queryOne db.tags (fun t => t.id == tag_id) with
  | OneResult.found _ =>
      ({ db with tags := db.tags.filter (fun t => !(t.id == tag_id)) },
       msgResp 204 ("Tag o ID " ++ toString tag_id ++ " usunięty."))
  | OneResult.noResult =>
      (db, msgResp 404 ("Tag o ID " ++ toString tag_id ++ " nie znaleziony."))
  | OneResult.multipleResults => (db, ⟨500, Body.serverError⟩)

end TagItem

/-! ## The full operation surface (the routes registered by `api.add_resource`) -/

/-- One request against the API: every verb/path combination the router
exposes, with its parsed path parameter and (for POST/PUT) its JSON body. -/
inductive Op where
  | moviesListGet
  | moviesListPost (req : Req)
  | movieGet (movie_id : Int)
  | moviePut (movie_id : Int) (req : Req)
  | movieDelete (movie_id : Int)
  | linksListGet
  | linksListPost (req : Req)
  | linkGet (movie_id : Int)
  | linkPut (movie_id : Int) (req : Req)
  | linkDelete (movie_id : Int)
  | ratingsListGet
  | ratingsListPost (req : Req)
  | ratingGet (rating_id : Nat)
  | ratingPut (rating_id : Nat) (req : Req)
  | ratingDelete (rating_id : Nat)
  | tagsListGet
  | tagsListPost (req : Req)
  | tagGet (tag_id : Nat)
  | tagPut (tag_id : Nat) (req : Req)
  | tagDelete (tag_id : Nat)

/-- Dispatch one request to its handler (the router's only job). -/
def applyOp (db : DB) : Op → DB × Resp
  | Op.moviesListGet => MoviesList.get db
  | Op.moviesListPost req => MoviesList.post db req
  | Op.movieGet k => MovieItem.get db k
  | Op.moviePut k req => MovieItem.put db k req
  | Op.movieDelete k => MovieItem.delete db k
  | Op.linksListGet => LinksList.get db
  | Op.linksListPost req => LinksList.post db req
  | Op.linkGet k => LinksItem.get db k
  | Op.linkPut k req => LinksItem.put db k req
  | Op.linkDelete k => LinksItem.delete db k
  | Op.ratingsListGet => RatingList.get db
  | Op.ratingsListPost req => RatingList.post db req
  | Op.ratingGet k => RatingItem.get db k
  | Op.ratingPut k req => RatingItem.put db k req
  | Op.ratingDelete k => RatingItem.delete db k
  | Op.tagsListGet => TagList.get db
  | Op.tagsListPost req => TagList.post db req
  | Op.tagGet k => TagItem.get db k
  | Op.tagPut k req => TagItem.put db k req
  | Op.tagDelete k => TagItem.delete db k

/-! ## Referential-integrity predicates -/

/-- Some movie row carries the given `movieId`. -/
def movieExists (db : DB) (i : Int) : Prop :=
  ∃ m ∈ db.movies, m.movieId = i

/-- Every persisted link references an existing movie. -/
def LinkFKInv (db : DB) : Prop :=
  ∀ l ∈ db.links, movieExists db l.movieId

/-- Every persisted rating references an existing movie. -/
def RatingFKInv (db : DB) : Prop :=
  ∀ r ∈ db.ratings, movieExists db r.movieId

/-- Every persisted tag references an existing movie. -/
def TagFKInv (db : DB) : Prop :=
  ∀ t ∈ db.tags, movieExists db t.movieId

instance (db : DB) (i : Int) : Decidable (movieExists db i) := by
  unfold movieExists; infer_instance

instance (db : DB) : Decidable (LinkFKInv db) := by
  unfold LinkFKInv; infer_instance

instance (db : DB) : Decidable (RatingFKInv db) := by
  unfold RatingFKInv; infer_instance

instance (db : DB) : Decidable (TagFKInv db) := by
  unfold TagFKInv; infer_instance

/-! ## Session manager (`configure_db` / `get_db` in app.py)

`get_db` is a context manager: it raises if the session factory has not been
configured, otherwise it opens a session, yields it to the request body, and
closes it in a `finally` block — on the normal path and on the exceptional
path alike.  The model counts open sessions and runs the body to a result
that is either a normal return or a raised fault. -/

/-- Process-wide session state: whether `configure_db` has run
(`SessionLocal is not None`) and how many sessions are currently open. -/
structure SessionWorld where
  configured : Bool
  openSessions : Nat
deriving DecidableEq, Repr

/-- `configure_db`: creates the engine and session factory and installs them
in the process globals. -/
def configure_db (w : SessionWorld) : SessionWorld :=
  { w with configured := true }

/-- What a request body does with its session: return a value or raise. -/
def BodyRun (α : Type) : Type := Except String α

/-- Result of entering `get_db`: the not-configured exception, or the body's
own outcome (normal or raised) propagated out of the `with` block. -/
inductive DbResult (α : Type) where
  | notConfigured (message : String)
  | completed (r : Except String α)

/-- `get_db`: raise if unconfigured; otherwise open a session (`SessionLocal()`),
run the body, and close the session in `finally` on both exit paths. -/
def get_db {α : Type} (w : SessionWorld) (run : BodyRun α) : SessionWorld × DbResult α :=
  if w.configured then
    let opened : SessionWorld := { w with openSessions := w.openSessions + 1 }
    let afterBody : Except String α := run
    let closed : SessionWorld := { opened with openSessions := opened.openSessions - 1 }
    (closed, DbResult.completed afterBody)
  else
    (w, DbResult.notConfigured
      "Database not configured. Call initialize_database() or create_app() first.")

/-! ## Helper lemmas -/

theorem filter_eq_nil_of_find?_none {α : Type} {l : List α} {p : α → Bool}
    (h : l.find? p = none) : l.filter p = [] := by
  rw [List.filter_eq_nil_iff]
  intro a ha
  exact List.find?_eq_none.mp h a ha

theorem queryOne_nil_of_find?_none {α : Type} {l : List α} {p : α → Bool}
    (h : l.find? p = none) : queryOne l p = OneResult.noResult := by
  unfold queryOne
  rw [filter_eq_nil_of_find?_none h]

theorem queryOne_append_single {α : Type} {l : List α} {p : α → Bool} {x : α}
    (hl : l.filter p = []) (hx : p x = true) :
    queryOne (l ++ [x]) p = OneResult.found x := by
  unfold queryOne
  rw [List.filter_append, hl, List.nil_append, List.filter_cons, if_pos hx,
    List.filter_nil]

theorem queryOne_eq_filter_eq {α : Type} {l : List α} {p : α → Bool} {x : α}
    (h : l.filter p = [x]) : queryOne l p = OneResult.found x := by
  unfold queryOne
  rw [h]

theorem mem_le_foldr_max (ids : List Nat) : ∀ x ∈ ids, x ≤ ids.foldr max 0 := by
  induction ids with
  | nil => intro x hx; cases hx
  | cons a t ih =>
    intro x hx
    rcases List.mem_cons.mp hx with rfl | hx
    · exact Nat.le_max_left _ _
    · exact Nat.le_trans (ih x hx) (Nat.le_max_right a _)

theorem mem_lt_newRowId (ids : List Nat) : ∀ x ∈ ids, x < newRowId ids := by
  intro x hx
  exact Nat.lt_succ_of_le (mem_le_foldr_max ids x hx)

theorem filter_beq_newRowId_nil {α : Type} (l : List α) (f : α → Nat) :
    l.filter (fun x => f x == newRowId (l.map f)) = [] := by
  rw [List.filter_eq_nil_iff]
  intro a ha
  have hlt : f a < newRowId (l.map f) :=
    mem_lt_newRowId _ (f a) (List.mem_map_of_mem f ha)
  simp only [beq_iff_eq]
  exact Nat.ne_of_lt hlt

theorem linkFKInv_congr {db db' : DB} (hl : db'.links = db.links)
    (hm : db'.movies = db.movies) (h : LinkFKInv db) : LinkFKInv db' := by
  intro l hlmem
  rw [hl] at hlmem
  obtain ⟨m, hmm, hid⟩ := h l hlmem
  exact ⟨m, by rw [hm]; exact hmm, hid⟩

theorem linkFKInv_mono {db db' : DB}
    (hl : ∀ l ∈ db'.links, ∃ l0 ∈ db.links, l0.movieId = l.movieId)
    (hm : ∀ i, movieExists db i → movieExists db' i)
    (h : LinkFKInv db) : LinkFKInv db' := by
  intro l hlmem
  obtain ⟨l0, hl0, hid⟩ := hl l hlmem
  rw [← hid]
  exact hm _ (h l0 hl0)

theorem linkInv_movies_map {db : DB} (f : Movie → Movie)
    (hf : ∀ m, (f m).movieId = m.movieId) (h : LinkFKInv db) :
    LinkFKInv { db with movies := db.movies.map f } := by
  apply linkFKInv_mono _ _ h
  · intro l hl; exact ⟨l, hl, rfl⟩
  · rintro i ⟨m, hm, hid⟩
    exact ⟨f m, List.mem_map_of_mem f hm, by rw [hf]; exact hid⟩

theorem linkInv_links_map {db : DB} (g : Links → Links)
    (hg : ∀ l, (g l).movieId = l.movieId) (h : LinkFKInv db) :
    LinkFKInv { db with links := db.links.map g } := by
  apply linkFKInv_mono _ _ h
  · intro l hl
    obtain ⟨l0, hl0, rfl⟩ := List.mem_map.mp hl
    exact ⟨l0, hl0, (hg l0).symm⟩
  · rintro i ⟨m, hm, hid⟩; exact ⟨m, hm, hid⟩

theorem linkInv_links_filter {db : DB} (p : Links → Bool) (h : LinkFKInv db) :
    LinkFKInv { db with links := db.links.filter p } := by
  apply linkFKInv_mono _ _ h
  · intro l hl; exact ⟨l, (List.mem_filter.mp hl).1, rfl⟩
  · rintro i ⟨m, hm, hid⟩; exact ⟨m, hm, hid⟩

theorem linkInv_movies_append {db : DB} (m : Movie) (h : LinkFKInv db) :
    LinkFKInv { db with movies := db.movies ++ [m] } := by
  apply linkFKInv_mono _ _ h
  · intro l hl; exact ⟨l, hl, rfl⟩
  · rintro i ⟨m0, hm0, hid⟩; exact ⟨m0, List.mem_append_left _ hm0, hid⟩

theorem linkInv_links_append {db : DB} (l : Links)
    (hex : movieExists db l.movieId) (h : LinkFKInv db) :
    LinkFKInv { db with links := db.links ++ [l] } := by
  intro l0 hl0
  rcases List.mem_append.mp hl0 with hmem | hmem
  · exact h l0 hmem
  · rcases List.mem_singleton.mp hmem with rfl
    exact hex

theorem linkInv_movie_delete {db : DB} (k : Int) (h : LinkFKInv db) :
    LinkFKInv
      { movies := db.movies.filter (fun m => !(m.movieId == k)),
        links := db.links.filter (fun l => !(l.movieId == k)),
        ratings := db.ratings.filter (fun r => !(r.movieId == k)),
        tags := db.tags.filter (fun t => !(t.movieId == k)) } := by
  intro l hl
  obtain ⟨hmem, hne⟩ := List.mem_filter.mp hl
  obtain ⟨m, hm, hid⟩ := h l hmem
  refine ⟨m, List.mem_filter.mpr ⟨hm, ?_⟩, hid⟩
  rw [hid]
  exact hne

theorem linkInv_ratings_tags_only {db : DB} (rs : List Ratings) (ts : List Tags)
    (h : LinkFKInv db) :
    LinkFKInv { db with ratings := rs, tags := ts } := by
  intro l hl
  exact h l hl

theorem queryOne_found_filter {α : Type} {l : List α} {p : α → Bool} {x : α}
    (h : queryOne l p = OneResult.found x) : l.filter p = [x] := by
  unfold queryOne at h
  rcases hf : l.filter p with - | ⟨y, - | ⟨z, rest⟩⟩ <;> rw [hf] at h
  · cases h
  · cases h; rfl
  · cases h

theorem queryOne_found_mem {α : Type} {l : List α} {p : α → Bool} {x : α}
    (h : queryOne l p = OneResult.found x) : x ∈ l ∧ p x = true := by
  have hf := queryOne_found_filter h
  have hx : x ∈ l.filter p := by rw [hf]; exact List.mem_singleton_self x
  exact List.mem_filter.mp hx

theorem movieExists_of_find? {db : DB} {i : Int}
    (h : (db.movies.find? (fun m => m.movieId == i)).isSome = true) :
    movieExists db i := by
  obtain ⟨m, hm, hp⟩ := List.find?_isSome.mp h
  exact ⟨m, hm, by simpa using hp⟩

theorem links_find?_none_of_inv {db : DB} {i : Int} (hinv : LinkFKInv db)
    (hm : db.movies.find? (fun m => m.movieId == i) = none) :
    db.links.find? (fun l => l.movieId == i) = none := by
  rw [List.find?_eq_none]
  intro l hl
  simp only [beq_iff_eq]
  intro hid
  obtain ⟨m, hmm, hmid⟩ := hinv l hl
  have hnone := List.find?_eq_none.mp hm m hmm
  rw [hid] at hmid
  simp [beq_iff_eq, hmid] at hnone

theorem linkInv_MoviesList_post (db : DB) (req : Req) (h : LinkFKInv db) :
    LinkFKInv (MoviesList.post db req).1 := by
  unfold MoviesList.post
  cases parseMovieArgs req with
  | none => exact h
  | some args =>
    dsimp only
    split
    · exact h
    · exact linkInv_movies_append _ h

theorem linkInv_LinksList_post (db : DB) (req : Req) (h : LinkFKInv db) :
    LinkFKInv (LinksList.post db req).1 := by
  unfold LinksList.post
  cases parseLinkArgs req with
  | none => exact h
  | some args =>
    dsimp only
    split
    · exact h
    · split
      · exact h
      · rename_i hcond
        apply linkInv_links_append _ _ h
        apply movieExists_of_find?
        revert hcond
        cases (db.movies.find? (fun m => m.movieId == args.movieId)).isSome <;> simp

theorem linkInv_RatingList_post (db : DB) (req : Req) (h : LinkFKInv db) :
    LinkFKInv (RatingList.post db req).1 := by
  unfold RatingList.post
  cases parseRatingArgs req with
  | none => exact h
  | some args =>
    dsimp only
    split
    · exact h
    · exact linkFKInv_congr rfl rfl h

theorem linkInv_TagList_post (db : DB) (req : Req) (h : LinkFKInv db) :
    LinkFKInv (TagList.post db req).1 := by
  unfold TagList.post
  cases parseTagArgs req with
  | none => exact h
  | some args =>
    dsimp only
    split
    · exact h
    · exact linkFKInv_congr rfl rfl h

theorem linkInv_MovieItem_put (db : DB) (k : Int) (req : Req) (h : LinkFKInv db) :
    LinkFKInv (MovieItem.put db k req).1 := by
  unfold MovieItem.put
  cases parseMovieArgs req with
  | none => exact h
  | some args =>
    cases hq : queryOne db.movies (fun m => m.movieId == k) with
    | found m =>
      dsimp only
      apply linkInv_movies_map _ _ h
      intro x
      by_cases hx : (x.movieId == k) = true
      · have hm : m.movieId = k := by
          have := (queryOne_found_mem hq).2
          simpa [beq_iff_eq] using this
        have hxk : x.movieId = k := by simpa [beq_iff_eq] using hx
        simp [hx, hm, hxk]
      · simp [hx]
    | noResult => exact h
    | multipleResults => exact h

theorem linkInv_MovieItem_delete (db : DB) (k : Int) (h : LinkFKInv db) :
    LinkFKInv (MovieItem.delete db k).1 := by
  unfold MovieItem.delete
  cases queryOne db.movies (fun m => m.movieId == k) with
  | found m => exact linkInv_movie_delete k h
  | noResult => exact h
  | multipleResults => exact h

theorem linkInv_LinksItem_put (db : DB) (k : Int) (req : Req) (h : LinkFKInv db) :
    LinkFKInv (LinksItem.put db k req).1 := by
  unfold LinksItem.put
  cases parseLinkArgs req with
  | none => exact h
  | some args =>
    cases hq : queryOne db.links (fun l => l.movieId == k) with
    | found l =>
      dsimp only
      apply linkInv_links_map _ _ h
      intro x
      by_cases hx : (x.movieId == k) = true
      · have hl : l.movieId = k := by
          have := (queryOne_found_mem hq).2
          simpa [beq_iff_eq] using this
        have hxk : x.movieId = k := by simpa [beq_iff_eq] using hx
        simp [hx, hl, hxk]
      · simp [hx]
    | noResult => exact h
    | multipleResults => exact h

theorem linkInv_LinksItem_delete (db : DB) (k : Int) (h : LinkFKInv db) :
    LinkFKInv (LinksItem.delete db k).1 := by
  unfold LinksItem.delete
  cases queryOne db.links (fun l => l.movieId == k) with
  | found l => exact linkInv_links_filter _ h
  | noResult => exact h
  | multipleResults => exact h

theorem linkInv_RatingItem_put (db : DB) (k : Nat) (req : Req) (h : LinkFKInv db) :
    LinkFKInv (RatingItem.put db k req).1 := by
  unfold RatingItem.put
  cases parseRatingArgs req with
  | none => exact h
  | some args =>
    cases queryOne db.ratings (fun r => r.id == k) with
    | found r => exact linkFKInv_congr rfl rfl h
    | noResult => exact h
    | multipleResults => exact h

theorem linkInv_RatingItem_delete (db : DB) (k : Nat) (h : LinkFKInv db) :
    LinkFKInv (RatingItem.delete db k).1 := by
  unfold RatingItem.delete
  cases queryOne db.ratings (fun r => r.id == k) with
  | found r => exact linkFKInv_congr rfl rfl h
  | noResult => exact h
  | multipleResults => exact h

theorem linkInv_TagItem_put (db : DB) (k : Nat) (req : Req) (h : LinkFKInv db) :
    LinkFKInv (TagItem.put db k req).1 := by
  unfold TagItem.put
  cases parseTagArgs req with
  | none => exact h
  | some args =>
    cases queryOne db.tags (fun t => t.id == k) with
    | found t => exact linkFKInv_congr rfl rfl h
    | noResult => exact h
    | multipleResults => exact h

theorem linkInv_TagItem_delete (db : DB) (k : Nat) (h : LinkFKInv db) :
    LinkFKInv (TagItem.delete db k).1 := by
  unfold TagItem.delete
  cases queryOne db.tags (fun t => t.id == k) with
  | found t => exact linkFKInv_congr rfl rfl h
  | noResult => exact h
  | multipleResults => exact h

theorem MovieItem_get_fst (db : DB) (k : Int) : (MovieItem.get db k).1 = db := by
  unfold MovieItem.get
  cases queryOne db.movies (fun m => m.movieId == k) <;> rfl

theorem LinksItem_get_fst (db : DB) (k : Int) : (LinksItem.get db k).1 = db := by
  unfold LinksItem.get
  cases queryOne db.links (fun l => l.movieId == k) <;> rfl

theorem RatingItem_get_fst (db : DB) (k : Nat) : (RatingItem.get db k).1 = db := by
  unfold RatingItem.get
  cases queryOne db.ratings (fun r => r.id == k) <;> rfl

theorem TagItem_get_fst (db : DB) (k : Nat) : (TagItem.get db k).1 = db := by
  unfold TagItem.get
  cases queryOne db.tags (fun t => t.id == k) <;> rfl

theorem linkInv_applyOp (db : DB) (op : Op) (h : LinkFKInv db) :
    LinkFKInv (applyOp db op).1 := by
  cases op with
  | moviesListGet => exact h
  | moviesListPost req => exact linkInv_MoviesList_post db req h
  | movieGet k => rw [applyOp, MovieItem_get_fst]; exact h
  | moviePut k req => exact linkInv_MovieItem_put db k req h
  | movieDelete k => exact linkInv_MovieItem_delete db k h
  | linksListGet => exact h
  | linksListPost req => exact linkInv_LinksList_post db req h
  | linkGet k => rw [applyOp, LinksItem_get_fst]; exact h
  | linkPut k req => exact linkInv_LinksItem_put db k req h
  | linkDelete k => exact linkInv_LinksItem_delete db k h
  | ratingsListGet => exact h
  | ratingsListPost req => exact linkInv_RatingList_post db req h
  | ratingGet k => rw [applyOp, RatingItem_get_fst]; exact h
  | ratingPut k req => exact linkInv_RatingItem_put db k req h
  | ratingDelete k => exact linkInv_RatingItem_delete db k h
  | tagsListGet => exact h
  | tagsListPost req => exact linkInv_TagList_post db req h
  | tagGet k => rw [applyOp, TagItem_get_fst]; exact h
  | tagPut k req => exact linkInv_TagItem_put db k req h
  | tagDelete k => exact linkInv_TagItem_delete db k h

/-! ## Claims -/

/-- C1: For every entity (Movie, Link, Rating, Tag) and every well-typed
field set, a successful create followed by `getByKey` on the same key (the
caller-supplied `movieId` for Movie and Link, the store-generated id for
Rating and Tag) returns an entity whose fields equal the input fields. -/
theorem c1_create_then_getByKey_roundtrip :
    (∀ (db : DB) (req : Req) (args : MovieArgs),
      parseMovieArgs req = some args →
      db.movies.find? (fun m => m.movieId == args.movieId) = none →
      (MoviesList.post db req).2.status = 201 ∧
      MovieItem.get (MoviesList.post db req).1 args.movieId =
        ((MoviesList.post db req).1,
         ⟨200, Body.obj [("movieId", JVal.jInt args.movieId),
                         ("title", JVal.jStr args.title),
                         ("genres", JVal.jStr args.genres)]⟩)) ∧
    (∀ (db : DB) (req : Req) (args : LinkArgs),
      parseLinkArgs req = some args →
      db.links.find? (fun l => l.movieId == args.movieId) = none →
      (db.movies.find? (fun m => m.movieId == args.movieId)).isSome = true →
      (LinksList.post db req).2.status = 201 ∧
      LinksItem.get (LinksList.post db req).1 args.movieId =
        ((LinksList.post db req).1,
         ⟨200, Body.obj [("movieId", JVal.jInt args.movieId),
                         ("imdbId", JVal.jStr args.imdbId),
                         ("tmdbId", JVal.jStr args.tmdbId)]⟩)) ∧
    (∀ (db : DB) (req : Req) (args : RatingArgs),
      parseRatingArgs req = some args →
      (db.movies.find? (fun m => m.movieId == args.movieId)).isSome = true →
      (RatingList.post db req).2.status = 201 ∧
      RatingItem.get (RatingList.post db req).1 (newRowId (db.ratings.map Ratings.id)) =
        ((RatingList.post db req).1,
         ⟨200, Body.obj [("userId", JVal.jInt args.userId),
                         ("movieId", JVal.jInt args.movieId),
                         ("rating", JVal.jFloat args.rating),
                         ("timestamp", JVal.jInt args.timestamp)]⟩)) ∧
    (∀ (db : DB) (req : Req) (args : TagArgs),
      parseTagArgs req = some args →
      (db.movies.find? (fun m => m.movieId == args.movieId)).isSome = true →
      (TagList.post db req).2.status = 201 ∧
      TagItem.get (TagList.post db req).1 (newRowId (db.tags.map Tags.id)) =
        ((TagList.post db req).1,
         ⟨200, Body.obj [("userId", JVal.jInt args.userId),
                         ("movieId", JVal.jInt args.movieId),
                         ("tag", JVal.jStr args.tag),
                         ("timestamp", JVal.jInt args.timestamp)]⟩)) := by
  refine ⟨?_, ?_, ?_, ?_⟩
  · intro db req args hp hn
    have hpost : MoviesList.post db req =
        ({ db with movies := db.movies ++ [⟨args.movieId, args.title, args.genres⟩] },
         ⟨201, Body.obj (Movie.to_dict ⟨args.movieId, args.title, args.genres⟩)⟩) := by
      unfold MoviesList.post
      rw [hp]
      dsimp only
      rw [hn]
      rfl
    rw [hpost]
    refine ⟨rfl, ?_⟩
    unfold MovieItem.get
    rw [queryOne_append_single (filter_eq_nil_of_find?_none hn) (by simp)]
    rfl
  · intro db req args hp hnl hm
    have hpost : LinksList.post db req =
        ({ db with links := db.links ++
            [⟨newRowId (db.links.map Links.id), args.movieId, args.imdbId, args.tmdbId⟩] },
         ⟨201, Body.obj (Links.to_dict
            ⟨newRowId (db.links.map Links.id), args.movieId, args.imdbId, args.tmdbId⟩)⟩) := by
      unfold LinksList.post
      rw [hp]
      dsimp only
      rw [hnl, hm]
      rfl
    rw [hpost]
    refine ⟨rfl, ?_⟩
    unfold LinksItem.get
    rw [queryOne_append_single (filter_eq_nil_of_find?_none hnl) (by simp)]
    rfl
  · intro db req args hp hm
    have hpost : RatingList.post db req =
        ({ db with ratings := db.ratings ++
            [⟨newRowId (db.ratings.map Ratings.id), args.userId, args.movieId,
              args.rating, args.timestamp⟩] },
         ⟨201, Body.obj (Ratings.to_dict
            ⟨newRowId (db.ratings.map Ratings.id), args.userId, args.movieId,
             args.rating, args.timestamp⟩)⟩) := by
      unfold RatingList.post
      rw [hp]
      dsimp only
      rw [hm]
      rfl
    rw [hpost]
    refine ⟨rfl, ?_⟩
    unfold RatingItem.get
    rw [queryOne_append_single (l := db.ratings)
      (p := fun r => r.id == newRowId (db.ratings.map Ratings.id))
      (filter_beq_newRowId_nil db.ratings Ratings.id) (by simp)]
    rfl
  · intro db req args hp hm
    have hpost : TagList.post db req =
        ({ db with tags := db.tags ++
            [⟨newRowId (db.tags.map Tags.id), args.userId, args.movieId,
              args.tag, args.timestamp⟩] },
         ⟨201, Body.obj (Tags.to_dict
            ⟨newRowId (db.tags.map Tags.id), args.userId, args.movieId,
             args.tag, args.timestamp⟩)⟩) := by
      unfold TagList.post
      rw [hp]
      dsimp only
      rw [hm]
      rfl
    rw [hpost]
    refine ⟨rfl, ?_⟩
    unfold TagItem.get
    rw [queryOne_append_single (l := db.tags)
      (p := fun t => t.id == newRowId (db.tags.map Tags.id))
      (filter_beq_newRowId_nil db.tags Tags.id) (by simp)]
    rfl

/-- A one-movie store used to instantiate claims on concrete inputs. -/
def dbOneMovie : DB := ⟨[⟨1, "A", "D"⟩], [], [], []⟩

/-- Witness for C1: the round-trip theorem applied to concrete requests
against a fresh store (Movie) and a one-movie store (Link, Rating, Tag). -/
theorem c1_create_then_getByKey_roundtrip_witness :
    ((MoviesList.post emptyDB
        [("movieId", JVal.jInt 1), ("title", JVal.jStr "A"), ("genres", JVal.jStr "D")]).2.status = 201 ∧
     MovieItem.get (MoviesList.post emptyDB
        [("movieId", JVal.jInt 1), ("title", JVal.jStr "A"), ("genres", JVal.jStr "D")]).1 1 =
       ((MoviesList.post emptyDB
          [("movieId", JVal.jInt 1), ("title", JVal.jStr "A"), ("genres", JVal.jStr "D")]).1,
        ⟨200, Body.obj [("movieId", JVal.jInt 1), ("title", JVal.jStr "A"),
                        ("genres", JVal.jStr "D")]⟩)) ∧
    ((LinksList.post dbOneMovie
        [("movieId", JVal.jInt 1), ("imdbId", JVal.jStr "x"), ("tmdbId", JVal.jStr "y")]).2.status = 201 ∧
     LinksItem.get (LinksList.post dbOneMovie
        [("movieId", JVal.jInt 1), ("imdbId", JVal.jStr "x"), ("tmdbId", JVal.jStr "y")]).1 1 =
       ((LinksList.post dbOneMovie
          [("movieId", JVal.jInt 1), ("imdbId", JVal.jStr "x"), ("tmdbId", JVal.jStr "y")]).1,
        ⟨200, Body.obj [("movieId", JVal.jInt 1), ("imdbId", JVal.jStr "x"),
                        ("tmdbId", JVal.jStr "y")]⟩)) ∧
    ((RatingList.post dbOneMovie
        [("userId", JVal.jInt 7), ("movieId", JVal.jInt 1), ("rating", JVal.jFloat 3),
         ("timestamp", JVal.jInt 10)]).2.status = 201 ∧
     RatingItem.get (RatingList.post dbOneMovie
        [("userId", JVal.jInt 7), ("movieId", JVal.jInt 1), ("rating", JVal.jFloat 3),
         ("timestamp", JVal.jInt 10)]).1 (newRowId (dbOneMovie.ratings.map Ratings.id)) =
       ((RatingList.post dbOneMovie
          [("userId", JVal.jInt 7), ("movieId", JVal.jInt 1), ("rating", JVal.jFloat 3),
           ("timestamp", JVal.jInt 10)]).1,
        ⟨200, Body.obj [("userId", JVal.jInt 7), ("movieId", JVal.jInt 1),
                        ("rating", JVal.jFloat 3), ("timestamp", JVal.jInt 10)]⟩)) ∧
    ((TagList.post dbOneMovie
        [("userId", JVal.jInt 7), ("movieId", JVal.jInt 1), ("tag", JVal.jStr "good"),
         ("timestamp", JVal.jInt 10)]).2.status = 201 ∧
     TagItem.get (TagList.post dbOneMovie
        [("userId", JVal.jInt 7), ("movieId", JVal.jInt 1), ("tag", JVal.jStr "good"),
         ("timestamp", JVal.jInt 10)]).1 (newRowId (dbOneMovie.tags.map Tags.id)) =
       ((TagList.post dbOneMovie
          [("userId", JVal.jInt 7), ("movieId", JVal.jInt 1), ("tag", JVal.jStr "good"),
           ("timestamp", JVal.jInt 10)]).1,
        ⟨200, Body.obj [("userId", JVal.jInt 7), ("movieId", JVal.jInt 1),
                        ("tag", JVal.jStr "good"), ("timestamp", JVal.jInt 10)]⟩)) :=
  ⟨c1_create_then_getByKey_roundtrip.1 emptyDB _ ⟨1, "A", "D"⟩ rfl rfl,
   c1_create_then_getByKey_roundtrip.2.1 dbOneMovie _ ⟨1, "x", "y"⟩ rfl rfl rfl,
   c1_create_then_getByKey_roundtrip.2.2.1 dbOneMovie _ ⟨7, 1, 3, 10⟩ rfl rfl,
   c1_create_then_getByKey_roundtrip.2.2.2 dbOneMovie _ ⟨7, 1, "good", 10⟩ rfl rfl⟩

/-- C2 (amended): every API operation preserves the invariant that every
persisted Link references an existing Movie, and creating a Link, Rating or
Tag whose `movieId` has no corresponding Movie fails with the foreign-key
400 and leaves the store unchanged.  The original claim's further assertion
— that updates of dependent rows also preserve referential integrity — is
refuted by `c2_counterexample`: `RatingItem.put`/`TagItem.put` write the
body's `movieId` without any existence check. -/
theorem c2_link_fk_invariant_and_create_checks :
    (∀ (db : DB) (op : Op), LinkFKInv db → LinkFKInv (applyOp db op).1) ∧
    (∀ (db : DB) (req : Req) (args : LinkArgs),
      parseLinkArgs req = some args → LinkFKInv db →
      db.movies.find? (fun m => m.movieId == args.movieId) = none →
      LinksList.post db req =
        (db, msgResp 400 ("Film o ID " ++ toString args.movieId ++
          " nie istnieje (Foreign Key Error)."))) ∧
    (∀ (db : DB) (req : Req) (args : RatingArgs),
      parseRatingArgs req = some args →
      db.movies.find? (fun m => m.movieId == args.movieId) = none →
      RatingList.post db req =
        (db, msgResp 400 ("Film o ID " ++ toString args.movieId ++
          " nie istnieje (Foreign Key Error)."))) ∧
    (∀ (db : DB) (req : Req) (args : TagArgs),
      parseTagArgs req = some args →
      db.movies.find? (fun m => m.movieId == args.movieId) = none →
      TagList.post db req =
        (db, msgResp 400 ("Film o ID " ++ toString args.movieId ++
          " nie istnieje (Foreign Key Error)."))) := by
  refine ⟨linkInv_applyOp, ?_, ?_, ?_⟩
  · intro db req args hp hinv hnm
    have hnl := links_find?_none_of_inv hinv hnm
    unfold LinksList.post
    rw [hp]
    dsimp only
    rw [hnl, hnm]
    rfl
  · intro db req args hp hnm
    unfold RatingList.post
    rw [hp]
    dsimp only
    rw [hnm]
    rfl
  · intro db req args hp hnm
    unfold TagList.post
    rw [hp]
    dsimp only
    rw [hnm]
    rfl

/-- Witness for C2 (amended): the movie-delete cascade on a concrete store
keeps the link invariant, and each dependent create against the empty store
is rejected with the foreign-key 400. -/
theorem c2_link_fk_invariant_and_create_checks_witness :
    LinkFKInv (applyOp dbOneMovie (Op.movieDelete 1)).1 ∧
    LinksList.post emptyDB
        [("movieId", JVal.jInt 5), ("imdbId", JVal.jStr "x"), ("tmdbId", JVal.jStr "y")] =
      (emptyDB, msgResp 400 "Film o ID 5 nie istnieje (Foreign Key Error).") ∧
    RatingList.post emptyDB
        [("userId", JVal.jInt 7), ("movieId", JVal.jInt 5), ("rating", JVal.jFloat 3),
         ("timestamp", JVal.jInt 10)] =
      (emptyDB, msgResp 400 "Film o ID 5 nie istnieje (Foreign Key Error).") ∧
    TagList.post emptyDB
        [("userId", JVal.jInt 7), ("movieId", JVal.jInt 5), ("tag", JVal.jStr "g"),
         ("timestamp", JVal.jInt 10)] =
      (emptyDB, msgResp 400 "Film o ID 5 nie istnieje (Foreign Key Error).") :=
  ⟨c2_link_fk_invariant_and_create_checks.1 dbOneMovie (Op.movieDelete 1) (by decide),
   c2_link_fk_invariant_and_create_checks.2.1 emptyDB _ ⟨5, "x", "y"⟩ rfl (by decide) rfl,
   c2_link_fk_invariant_and_create_checks.2.2.1 emptyDB _ ⟨7, 5, 3, 10⟩ rfl rfl,
   c2_link_fk_invariant_and_create_checks.2.2.2 emptyDB _ ⟨7, 5, "g", 10⟩ rfl rfl⟩

/-- The store reached from empty by creating Movie 1 and then a Rating for
it through the API. -/
def c2db : DB :=
  (RatingList.post
    (MoviesList.post emptyDB
      [("movieId", JVal.jInt 1), ("title", JVal.jStr "A"), ("genres", JVal.jStr "D")]).1
    [("userId", JVal.jInt 7), ("movieId", JVal.jInt 1), ("rating", JVal.jFloat 3),
     ("timestamp", JVal.jInt 10)]).1

/-- Counterexample to C2 as stated: in the reachable store `c2db` (which
satisfies all three referential-integrity invariants), updating Rating 1 to
`movieId = 5` — a movie that does not exist — succeeds with status 200 and
leaves a persisted Rating referencing a nonexistent Movie. -/
theorem c2_counterexample :
    RatingFKInv c2db ∧ LinkFKInv c2db ∧ TagFKInv c2db ∧
    (RatingItem.put c2db 1
      [("userId", JVal.jInt 7), ("movieId", JVal.jInt 5), ("rating", JVal.jFloat 3),
       ("timestamp", JVal.jInt 10)]).2.status = 200 ∧
    ¬ RatingFKInv (RatingItem.put c2db 1
      [("userId", JVal.jInt 7), ("movieId", JVal.jInt 5), ("rating", JVal.jFloat 3),
       ("timestamp", JVal.jInt 10)]).1 := by
  refine ⟨by decide, by decide, by decide, rfl, by decide⟩

theorem filter_of_filter_not {α : Type} (l : List α) (q : α → Bool) :
    (l.filter (fun x => !(q x))).filter q = [] := by
  rw [List.filter_eq_nil_iff]
  intro a ha
  have h2 := (List.mem_filter.mp ha).2
  simp only [Bool.not_eq_eq_eq_not, Bool.not_true] at h2
  simp [h2]

theorem links_to_dict_movieId {l : Links} {m : Int}
    (h : ("movieId", JVal.jInt m) ∈ Links.to_dict l) : l.movieId = m := by
  unfold Links.to_dict at h
  rcases List.mem_cons.mp h with h | h
  · injection h with h1 h2
    injection h2 with h3
    exact h3.symm
  rcases List.mem_cons.mp h with h | h
  · injection h with h1 h2
    exact absurd h1 (by decide)
  rcases List.mem_cons.mp h with h | h
  · injection h with h1 h2
    exact absurd h1 (by decide)
  · cases h

theorem ratings_to_dict_movieId {r : Ratings} {m : Int}
    (h : ("movieId", JVal.jInt m) ∈ Ratings.to_dict r) : r.movieId = m := by
  unfold Ratings.to_dict at h
  rcases List.mem_cons.mp h with h | h
  · injection h with h1 h2
    exact absurd h1 (by decide)
  rcases List.mem_cons.mp h with h | h
  · injection h with h1 h2
    injection h2 with h3
    exact h3.symm
  rcases List.mem_cons.mp h with h | h
  · injection h with h1 h2
    exact absurd h1 (by decide)
  rcases List.mem_cons.mp h with h | h
  · injection h with h1 h2
    exact absurd h1 (by decide)
  · cases h

theorem tags_to_dict_movieId {t : Tags} {m : Int}
    (h : ("movieId", JVal.jInt m) ∈ Tags.to_dict t) : t.movieId = m := by
  unfold Tags.to_dict at h
  rcases List.mem_cons.mp h with h | h
  · injection h with h1 h2
    exact absurd h1 (by decide)
  rcases List.mem_cons.mp h with h | h
  · injection h with h1 h2
    injection h2 with h3
    exact h3.symm
  rcases List.mem_cons.mp h with h | h
  · injection h with h1 h2
    exact absurd h1 (by decide)
  rcases List.mem_cons.mp h with h | h
  · injection h with h1 h2
    exact absurd h1 (by decide)
  · cases h

/-- C3: deleting an existing Movie removes, in the same unit of work, every
Link, Rating, and Tag whose `movieId` equals the deleted movie's id (the
dependent tables hold no such row afterwards), and the list endpoints for
Links, Ratings, and Tags subsequently show no row carrying that `movieId`. -/
theorem c3_movie_delete_cascade :
    ∀ (db : DB) (m : Int) (mv : Movie),
      db.movies.filter (fun x => x.movieId == m) = [mv] →
      (MovieItem.delete db m).2.status = 204 ∧
      (MovieItem.delete db m).1.links.filter (fun l => l.movieId == m) = [] ∧
      (MovieItem.delete db m).1.ratings.filter (fun r => r.movieId == m) = [] ∧
      (MovieItem.delete db m).1.tags.filter (fun t => t.movieId == m) = [] ∧
      (∀ o ∈ ((LinksList.get (MovieItem.delete db m).1).2.body).rows,
        ("movieId", JVal.jInt m) ∉ o) ∧
      (∀ o ∈ ((RatingList.get (MovieItem.delete db m).1).2.body).rows,
        ("movieId", JVal.jInt m) ∉ o) ∧
      (∀ o ∈ ((TagList.get (MovieItem.delete db m).1).2.body).rows,
        ("movieId", JVal.jInt m) ∉ o) := by
  intro db m mv hfound
  have hdel : MovieItem.delete db m =
      ({ movies := db.movies.filter (fun x => !(x.movieId == m)),
         links := db.links.filter (fun l => !(l.movieId == m)),
         ratings := db.ratings.filter (fun r => !(r.movieId == m)),
         tags := db.tags.filter (fun t => !(t.movieId == m)) },
       msgResp 204 ("Film o ID " ++ toString m ++ " usunięty.")) := by
    unfold MovieItem.delete
    rw [queryOne_eq_filter_eq hfound]
  rw [hdel]
  refine ⟨rfl, filter_of_filter_not _ _, filter_of_filter_not _ _,
    filter_of_filter_not _ _, ?_, ?_, ?_⟩
  · intro o ho hpair
    obtain ⟨l, hl, rfl⟩ := List.mem_map.mp ho
    have hne := (List.mem_filter.mp hl).2
    rw [links_to_dict_movieId hpair] at hne
    simp at hne
  · intro o ho hpair
    obtain ⟨r, hr, rfl⟩ := List.mem_map.mp ho
    have hne := (List.mem_filter.mp hr).2
    rw [ratings_to_dict_movieId hpair] at hne
    simp at hne
  · intro o ho hpair
    obtain ⟨t, ht, rfl⟩ := List.mem_map.mp ho
    have hne := (List.mem_filter.mp ht).2
    rw [tags_to_dict_movieId hpair] at hne
    simp at hne

/-- A two-movie store whose dependents all reference Movie 2, used to
exercise the cascade claim where the dependent lists stay nonempty. -/
def dbTwoMovies : DB :=
  ⟨[⟨1, "A", "D"⟩, ⟨2, "B", "E"⟩], [⟨1, 2, "x", "y"⟩],
   [⟨1, 7, 2, 3, 10⟩], [⟨1, 7, 2, "g", 10⟩]⟩

/-- Witness for C3: deleting Movie 1 from `dbTwoMovies` answers 204, and the
surviving dependent rows (all for Movie 2) carry no `movieId = 1` field. -/
theorem c3_movie_delete_cascade_witness :
    (MovieItem.delete dbTwoMovies 1).2.status = 204 ∧
    (MovieItem.delete dbTwoMovies 1).1.ratings.filter (fun r => r.movieId == 1) = [] ∧
    ("movieId", JVal.jInt 1) ∉
      ([("movieId", JVal.jInt 2), ("imdbId", JVal.jStr "x"), ("tmdbId", JVal.jStr "y")] : JObj) :=
  ⟨(c3_movie_delete_cascade dbTwoMovies 1 ⟨1, "A", "D"⟩ rfl).1,
   (c3_movie_delete_cascade dbTwoMovies 1 ⟨1, "A", "D"⟩ rfl).2.2.1,
   (c3_movie_delete_cascade dbTwoMovies 1 ⟨1, "A", "D"⟩ rfl).2.2.2.2.1 _ (by decide)⟩

/-- C4: a Link, Rating, or Tag create whose `movieId` has no corresponding
Movie fails with the foreign-key 400 and the store is unchanged (no row is
written).  For the Link case the store is assumed to satisfy the link
referential invariant (which every operation preserves), since a stray link
row for the same `movieId` would trip the duplicate check first. -/
theorem c4_create_missing_parent_rejected :
    (∀ (db : DB) (req : Req) (args : LinkArgs),
      parseLinkArgs req = some args → LinkFKInv db →
      db.movies.find? (fun m => m.movieId == args.movieId) = none →
      LinksList.post db req =
        (db, msgResp 400 ("Film o ID " ++ toString args.movieId ++
          " nie istnieje (Foreign Key Error)."))) ∧
    (∀ (db : DB) (req : Req) (args : RatingArgs),
      parseRatingArgs req = some args →
      db.movies.find? (fun m => m.movieId == args.movieId) = none →
      RatingList.post db req =
        (db, msgResp 400 ("Film o ID " ++ toString args.movieId ++
          " nie istnieje (Foreign Key Error)."))) ∧
    (∀ (db : DB) (req : Req) (args : TagArgs),
      parseTagArgs req = some args →
      db.movies.find? (fun m => m.movieId == args.movieId) = none →
      TagList.post db req =
        (db, msgResp 400 ("Film o ID " ++ toString args.movieId ++
          " nie istnieje (Foreign Key Error)."))) := by
  refine ⟨?_, ?_, ?_⟩
  · intro db req args hp hinv hnm
    have hnl := links_find?_none_of_inv hinv hnm
    unfold LinksList.post
    rw [hp]
    dsimp only
    rw [hnl, hnm]
    rfl
  · intro db req args hp hnm
    unfold RatingList.post
    rw [hp]
    dsimp only
    rw [hnm]
    rfl
  · intro db req args hp hnm
    unfold TagList.post
    rw [hp]
    dsimp only
    rw [hnm]
    rfl

/-- Witness for C4: each dependent create against the one-movie store,
referencing the absent Movie 6, is rejected with the foreign-key 400. -/
theorem c4_create_missing_parent_rejected_witness :
    LinksList.post dbOneMovie
        [("movieId", JVal.jInt 6), ("imdbId", JVal.jStr "x"), ("tmdbId", JVal.jStr "y")] =
      (dbOneMovie, msgResp 400 "Film o ID 6 nie istnieje (Foreign Key Error).") ∧
    RatingList.post dbOneMovie
        [("userId", JVal.jInt 7), ("movieId", JVal.jInt 6), ("rating", JVal.jFloat 3),
         ("timestamp", JVal.jInt 10)] =
      (dbOneMovie, msgResp 400 "Film o ID 6 nie istnieje (Foreign Key Error).") ∧
    TagList.post dbOneMovie
        [("userId", JVal.jInt 7), ("movieId", JVal.jInt 6), ("tag", JVal.jStr "g"),
         ("timestamp", JVal.jInt 10)] =
      (dbOneMovie, msgResp 400 "Film o ID 6 nie istnieje (Foreign Key Error).") :=
  ⟨c4_create_missing_parent_rejected.1 dbOneMovie _ ⟨6, "x", "y"⟩ rfl (by decide) rfl,
   c4_create_missing_parent_rejected.2.1 dbOneMovie _ ⟨7, 6, 3, 10⟩ rfl rfl,
   c4_create_missing_parent_rejected.2.2 dbOneMovie _ ⟨7, 6, "g", 10⟩ rfl rfl⟩

/-- C5: creating a Movie whose `movieId` is already present fails with 409
and leaves the store unchanged, and creating a Link for a `movieId` that
already has a Link fails with 409 and leaves the store unchanged. -/
theorem c5_create_conflict :
    (∀ (db : DB) (req : Req) (args : MovieArgs),
      parseMovieArgs req = some args →
      (db.movies.find? (fun m => m.movieId == args.movieId)).isSome = true →
      MoviesList.post db req =
        (db, msgResp 409 ("Film o ID " ++ toString args.movieId ++ " już istnieje."))) ∧
    (∀ (db : DB) (req : Req) (args : LinkArgs),
      parseLinkArgs req = some args →
      (db.links.find? (fun l => l.movieId == args.movieId)).isSome = true →
      LinksList.post db req =
        (db, msgResp 409 ("Link dla filmu o ID " ++ toString args.movieId ++
          " już istnieje."))) := by
  refine ⟨?_, ?_⟩
  · intro db req args hp hs
    unfold MoviesList.post
    rw [hp]
    dsimp only
    rw [hs]
    rfl
  · intro db req args hp hs
    unfold LinksList.post
    rw [hp]
    dsimp only
    rw [hs]
    rfl

/-- Witness for C5: re-creating Movie 1 in the one-movie store answers 409;
creating a second Link for Movie 2 in `dbTwoMovies` answers 409. -/
theorem c5_create_conflict_witness :
    MoviesList.post dbOneMovie
        [("movieId", JVal.jInt 1), ("title", JVal.jStr "Z"), ("genres", JVal.jStr "Q")] =
      (dbOneMovie, msgResp 409 "Film o ID 1 już istnieje.") ∧
    LinksList.post dbTwoMovies
        [("movieId", JVal.jInt 2), ("imdbId", JVal.jStr "a"), ("tmdbId", JVal.jStr "b")] =
      (dbTwoMovies, msgResp 409 "Link dla filmu o ID 2 już istnieje.") :=
  ⟨c5_create_conflict.1 dbOneMovie _ ⟨1, "Z", "Q"⟩ rfl rfl,
   c5_create_conflict.2 dbTwoMovies _ ⟨2, "a", "b"⟩ rfl rfl⟩

/-- C6: for every entity, an update (PUT) addressing a key with no matching
row fails with 404 and the store after the call equals the store before. -/
theorem c6_update_nonexistent_not_found :
    (∀ (db : DB) (k : Int) (req : Req) (args : MovieArgs),
      parseMovieArgs req = some args →
      db.movies.filter (fun m => m.movieId == k) = [] →
      MovieItem.put db k req =
        (db, msgResp 404 ("Film o ID " ++ toString k ++ " nie znaleziony."))) ∧
    (∀ (db : DB) (k : Int) (req : Req) (args : LinkArgs),
      parseLinkArgs req = some args →
      db.links.filter (fun l => l.movieId == k) = [] →
      LinksItem.put db k req =
        (db, msgResp 404 ("Link dla filmu o ID " ++ toString k ++ " nie znaleziony."))) ∧
    (∀ (db : DB) (k : Nat) (req : Req) (args : RatingArgs),
      parseRatingArgs req = some args →
      db.ratings.filter (fun r => r.id == k) = [] →
      RatingItem.put db k req =
        (db, msgResp 404 ("Ocena o ID " ++ toString k ++ " nie znaleziona."))) ∧
    (∀ (db : DB) (k : Nat) (req : Req) (args : TagArgs),
      parseTagArgs req = some args →
      db.tags.filter (fun t => t.id == k) = [] →
      TagItem.put db k req =
        (db, msgResp 404 ("Tag o ID " ++ toString k ++ " nie znaleziony."))) := by
  refine ⟨?_, ?_, ?_, ?_⟩
  · intro db k req args hp hf
    have hq : queryOne db.movies (fun m => m.movieId == k) = OneResult.noResult := by
      unfold queryOne
      rw [hf]
    unfold MovieItem.put
    rw [hp]
    dsimp only
    rw [hq]
  · intro db k req args hp hf
    have hq : queryOne db.links (fun l => l.movieId == k) = OneResult.noResult := by
      unfold queryOne
      rw [hf]
    unfold LinksItem.put
    rw [hp]
    dsimp only
    rw [hq]
  · intro db k req args hp hf
    have hq : queryOne db.ratings (fun r => r.id == k) = OneResult.noResult := by
      unfold queryOne
      rw [hf]
    unfold RatingItem.put
    rw [hp]
    dsimp only
    rw [hq]
  · intro db k req args hp hf
    have hq : queryOne db.tags (fun t => t.id == k) = OneResult.noResult := by
      unfold queryOne
      rw [hf]
    unfold TagItem.put
    rw [hp]
    dsimp only
    rw [hq]

/-- Witness for C6: each PUT against the empty store with key 3 answers 404
and leaves the store empty. -/
theorem c6_update_nonexistent_not_found_witness :
    MovieItem.put emptyDB 3
        [("movieId", JVal.jInt 3), ("title", JVal.jStr "A"), ("genres", JVal.jStr "D")] =
      (emptyDB, msgResp 404 "Film o ID 3 nie znaleziony.") ∧
    LinksItem.put emptyDB 3
        [("movieId", JVal.jInt 3), ("imdbId", JVal.jStr "x"), ("tmdbId", JVal.jStr "y")] =
      (emptyDB, msgResp 404 "Link dla filmu o ID 3 nie znaleziony.") ∧
    RatingItem.put emptyDB 3
        [("userId", JVal.jInt 7), ("movieId", JVal.jInt 3), ("rating", JVal.jFloat 3),
         ("timestamp", JVal.jInt 10)] =
      (emptyDB, msgResp 404 "Ocena o ID 3 nie znaleziona.") ∧
    TagItem.put emptyDB 3
        [("userId", JVal.jInt 7), ("movieId", JVal.jInt 3), ("tag", JVal.jStr "g"),
         ("timestamp", JVal.jInt 10)] =
      (emptyDB, msgResp 404 "Tag o ID 3 nie znaleziony.") :=
  ⟨c6_update_nonexistent_not_found.1 emptyDB 3 _ ⟨3, "A", "D"⟩ rfl rfl,
   c6_update_nonexistent_not_found.2.1 emptyDB 3 _ ⟨3, "x", "y"⟩ rfl rfl,
   c6_update_nonexistent_not_found.2.2.1 emptyDB 3 _ ⟨7, 3, 3, 10⟩ rfl rfl,
   c6_update_nonexistent_not_found.2.2.2 emptyDB 3 _ ⟨7, 3, "g", 10⟩ rfl rfl⟩

/-- C7: for every entity, a successful delete answers status 204, and the
body put on the wire for that response is empty (the handler's message dict
is dropped by the WSGI layer for status 204, per `wireBody`). -/
theorem c7_delete_204_empty_body :
    (∀ (db : DB) (k : Int) (mv : Movie),
      db.movies.filter (fun x => x.movieId == k) = [mv] →
      (MovieItem.delete db k).2.status = 204 ∧
      wireBody (MovieItem.delete db k).2 = Body.empty) ∧
    (∀ (db : DB) (k : Int) (l : Links),
      db.links.filter (fun x => x.movieId == k) = [l] →
      (LinksItem.delete db k).2.status = 204 ∧
      wireBody (LinksItem.delete db k).2 = Body.empty) ∧
    (∀ (db : DB) (k : Nat) (r : Ratings),
      db.ratings.filter (fun x => x.id == k) = [r] →
      (RatingItem.delete db k).2.status = 204 ∧
      wireBody (RatingItem.delete db k).2 = Body.empty) ∧
    (∀ (db : DB) (k : Nat) (t : Tags),
      db.tags.filter (fun x => x.id == k) = [t] →
      (TagItem.delete db k).2.status = 204 ∧
      wireBody (TagItem.delete db k).2 = Body.empty) := by
  refine ⟨?_, ?_, ?_, ?_⟩
  · intro db k mv hf
    unfold MovieItem.delete
    rw [queryOne_eq_filter_eq hf]
    exact ⟨rfl, rfl⟩
  · intro db k l hf
    unfold LinksItem.delete
    rw [queryOne_eq_filter_eq hf]
    exact ⟨rfl, rfl⟩
  · intro db k r hf
    unfold RatingItem.delete
    rw [queryOne_eq_filter_eq hf]
    exact ⟨rfl, rfl⟩
  · intro db k t hf
    unfold TagItem.delete
    rw [queryOne_eq_filter_eq hf]
    exact ⟨rfl, rfl⟩

/-- Witness for C7: deleting Movie 1, Link (movie 2), Rating 1, and Tag 1 in
`dbTwoMovies` each answers 204 with an empty wire body. -/
theorem c7_delete_204_empty_body_witness :
    ((MovieItem.delete dbTwoMovies 1).2.status = 204 ∧
      wireBody (MovieItem.delete dbTwoMovies 1).2 = Body.empty) ∧
    ((LinksItem.delete dbTwoMovies 2).2.status = 204 ∧
      wireBody (LinksItem.delete dbTwoMovies 2).2 = Body.empty) ∧
    ((RatingItem.delete dbTwoMovies 1).2.status = 204 ∧
      wireBody (RatingItem.delete dbTwoMovies 1).2 = Body.empty) ∧
    ((TagItem.delete dbTwoMovies 1).2.status = 204 ∧
      wireBody (TagItem.delete dbTwoMovies 1).2 = Body.empty) :=
  ⟨c7_delete_204_empty_body.1 dbTwoMovies 1 ⟨1, "A", "D"⟩ rfl,
   c7_delete_204_empty_body.2.1 dbTwoMovies 2 ⟨1, 2, "x", "y"⟩ rfl,
   c7_delete_204_empty_body.2.2.1 dbTwoMovies 1 ⟨1, 7, 2, 3, 10⟩ rfl,
   c7_delete_204_empty_body.2.2.2 dbTwoMovies 1 ⟨1, 7, 2, "g", 10⟩ rfl⟩

/-- C8 (amended): a create or update request that the declared parser cannot
satisfy — a missing required field, or a field value the declared type's
conversion rejects (e.g. non-numeric text for an `int` field) — fails with
status 400 and the handler returns before the session is opened: the result
is the same response for every store and the store is returned unchanged.
The original claim's stronger assertion — that any field of the wrong
structural kind (integer vs. real vs. text) is rejected — is refuted by
`c8_counterexample`: the parser applies Python's constructors as coercions,
so a real supplied for an integer field is truncated and accepted. -/
theorem c8_validation_rejected_before_store :
    (∀ (db : DB) (req : Req), parseMovieArgs req = none →
      MoviesList.post db req = (db, validationResp)) ∧
    (∀ (db : DB) (k : Int) (req : Req), parseMovieArgs req = none →
      MovieItem.put db k req = (db, validationResp)) ∧
    (∀ (db : DB) (req : Req), parseLinkArgs req = none →
      LinksList.post db req = (db, validationResp)) ∧
    (∀ (db : DB) (k : Int) (req : Req), parseLinkArgs req = none →
      LinksItem.put db k req = (db, validationResp)) ∧
    (∀ (db : DB) (req : Req), parseRatingArgs req = none →
      RatingList.post db req = (db, validationResp)) ∧
    (∀ (db : DB) (k : Nat) (req : Req), parseRatingArgs req = none →
      RatingItem.put db k req = (db, validationResp)) ∧
    (∀ (db : DB) (req : Req), parseTagArgs req = none →
      TagList.post db req = (db, validationResp)) ∧
    (∀ (db : DB) (k : Nat) (req : Req), parseTagArgs req = none →
      TagItem.put db k req = (db, validationResp)) := by
  refine ⟨?_, ?_, ?_, ?_, ?_, ?_, ?_, ?_⟩
  · intro db req hp
    unfold MoviesList.post
    rw [hp]
  · intro db k req hp
    unfold MovieItem.put
    rw [hp]
  · intro db req hp
    unfold LinksList.post
    rw [hp]
  · intro db k req hp
    unfold LinksItem.put
    rw [hp]
  · intro db req hp
    unfold RatingList.post
    rw [hp]
  · intro db k req hp
    unfold RatingItem.put
    rw [hp]
  · intro db req hp
    unfold TagList.post
    rw [hp]
  · intro db k req hp
    unfold TagItem.put
    rw [hp]

/-- Witness for C8 (amended): a movie create missing `genres`, a movie
update whose `movieId` is non-numeric text, a link create missing `imdbId`,
and a rating create whose `rating` is non-numeric text are all rejected with
the parser 400 against the empty store. -/
theorem c8_validation_rejected_before_store_witness :
    MoviesList.post emptyDB [("movieId", JVal.jInt 1), ("title", JVal.jStr "A")] =
      (emptyDB, validationResp) ∧
    MovieItem.put emptyDB 1
        [("movieId", JVal.jStr "abc"), ("title", JVal.jStr "A"), ("genres", JVal.jStr "D")] =
      (emptyDB, validationResp) ∧
    LinksList.post emptyDB [("movieId", JVal.jInt 1), ("tmdbId", JVal.jStr "y")] =
      (emptyDB, validationResp) ∧
    RatingList.post emptyDB
        [("userId", JVal.jInt 7), ("movieId", JVal.jInt 1), ("rating", JVal.jStr "high"),
         ("timestamp", JVal.jInt 10)] =
      (emptyDB, validationResp) :=
  ⟨c8_validation_rejected_before_store.1 emptyDB _ rfl,
   c8_validation_rejected_before_store.2.1 emptyDB 1 _ rfl,
   c8_validation_rejected_before_store.2.2.1 emptyDB _ rfl,
   c8_validation_rejected_before_store.2.2.2.2.1 emptyDB _ rfl⟩

/-- Counterexample to C8 as stated: a rating create whose `timestamp` field
is the real number 4.5 — the wrong structural type for an `int` field — is
not rejected: `int(4.5)` truncates to 4, the parse succeeds, the operation
answers 201, and a row is written to the store. -/
theorem c8_counterexample :
    parseRatingArgs
        [("userId", JVal.jInt 7), ("movieId", JVal.jInt 1), ("rating", JVal.jFloat 3),
         ("timestamp", JVal.jFloat (mkRat 9 2))] = some ⟨7, 1, 3, 4⟩ ∧
    (RatingList.post dbOneMovie
        [("userId", JVal.jInt 7), ("movieId", JVal.jInt 1), ("rating", JVal.jFloat 3),
         ("timestamp", JVal.jFloat (mkRat 9 2))]).2.status = 201 ∧
    (RatingList.post dbOneMovie
        [("userId", JVal.jInt 7), ("movieId", JVal.jInt 1), ("rating", JVal.jFloat 3),
         ("timestamp", JVal.jFloat (mkRat 9 2))]).1 ≠ dbOneMovie := by
  refine ⟨by decide, rfl, by decide⟩

/-- C9: requesting a unit-of-work before the store binding exists fails with
the not-configured error and changes nothing; once configured
(`configure_db` sets the binding), every acquisition succeeds, the body's
outcome — normal return or raised fault — is propagated, and the session
count after the call equals the count before on both exit paths (the
`finally` close). -/
theorem c9_session_scope :
    (∀ (w : SessionWorld) (α : Type) (run : BodyRun α), w.configured = false →
      get_db w run = (w, DbResult.notConfigured
        "Database not configured. Call initialize_database() or create_app() first.")) ∧
    (∀ (w : SessionWorld) (α : Type) (run : BodyRun α), w.configured = true →
      get_db w run = (w, DbResult.completed run)) ∧
    (∀ (w : SessionWorld), (configure_db w).configured = true) := by
  refine ⟨?_, ?_, ?_⟩
  · intro w α run hc
    unfold get_db
    rw [hc]
    rfl
  · intro w α run hc
    obtain ⟨c, n⟩ := w
    cases hc
    rfl
  · intro w
    rfl

/-- Witness for C9: against a concrete unconfigured world the acquisition
raises; against a configured world both a normal body and a raising body
complete with the session count restored. -/
theorem c9_session_scope_witness :
    get_db (⟨false, 0⟩ : SessionWorld) (Except.ok 1 : BodyRun Nat) =
      (⟨false, 0⟩, DbResult.notConfigured
        "Database not configured. Call initialize_database() or create_app() first.") ∧
    get_db (⟨true, 0⟩ : SessionWorld) (Except.ok 1 : BodyRun Nat) =
      (⟨true, 0⟩, DbResult.completed (Except.ok 1)) ∧
    get_db (⟨true, 0⟩ : SessionWorld) (Except.error "boom" : BodyRun Nat) =
      (⟨true, 0⟩, DbResult.completed (Except.error "boom")) ∧
    (configure_db ⟨false, 0⟩).configured = true :=
  ⟨c9_session_scope.1 ⟨false, 0⟩ Nat (Except.ok 1) rfl,
   c9_session_scope.2.1 ⟨true, 0⟩ Nat (Except.ok 1) rfl,
   c9_session_scope.2.1 ⟨true, 0⟩ Nat (Except.error "boom") rfl,
   c9_session_scope.2.2 ⟨false, 0⟩⟩

/-- C10: update (PUT) on an existing Movie or Link never applies the body's
`movieId`: the updated row keeps its stored key (`mv.movieId`, not
`args.movieId`), only `title`/`genres` (Movie) or `imdbId`/`tmdbId` (Link)
are replaced, the key column of the whole table is unchanged, and every row
not addressed by the path key is untouched. -/
theorem c10_put_never_applies_body_movieId :
    (∀ (db : DB) (k : Int) (req : Req) (args : MovieArgs) (mv : Movie),
      parseMovieArgs req = some args →
      db.movies.filter (fun x => x.movieId == k) = [mv] →
      (MovieItem.put db k req).2 =
        ⟨200, Body.obj (Movie.to_dict ⟨mv.movieId, args.title, args.genres⟩)⟩ ∧
      (MovieItem.put db k req).1.movies.map Movie.movieId =
        db.movies.map Movie.movieId ∧
      queryOne (MovieItem.put db k req).1.movies (fun x => x.movieId == k) =
        OneResult.found ⟨mv.movieId, args.title, args.genres⟩ ∧
      (∀ x ∈ db.movies, (x.movieId == k) = false →
        x ∈ (MovieItem.put db k req).1.movies)) ∧
    (∀ (db : DB) (k : Int) (req : Req) (args : LinkArgs) (lk : Links),
      parseLinkArgs req = some args →
      db.links.filter (fun x => x.movieId == k) = [lk] →
      (LinksItem.put db k req).2 =
        ⟨200, Body.obj (Links.to_dict ⟨lk.id, lk.movieId, args.imdbId, args.tmdbId⟩)⟩ ∧
      (LinksItem.put db k req).1.links.map Links.movieId =
        db.links.map Links.movieId ∧
      queryOne (LinksItem.put db k req).1.links (fun x => x.movieId == k) =
        OneResult.found ⟨lk.id, lk.movieId, args.imdbId, args.tmdbId⟩ ∧
      (∀ x ∈ db.links, (x.movieId == k) = false →
        x ∈ (LinksItem.put db k req).1.links)) := by
  constructor
  · intro db k req args mv hp hf
    have hmvk : (mv.movieId == k) = true := by
      have hmem : mv ∈ db.movies.filter (fun x => x.movieId == k) := by
        rw [hf]
        exact List.mem_singleton_self mv
      exact (List.mem_filter.mp hmem).2
    have hput : MovieItem.put db k req =
        ({ db with movies := db.movies.map (fun x =>
             if x.movieId == k then ⟨mv.movieId, args.title, args.genres⟩ else x) },
         ⟨200, Body.obj (Movie.to_dict ⟨mv.movieId, args.title, args.genres⟩)⟩) := by
      unfold MovieItem.put
      rw [hp]
      dsimp only
      rw [queryOne_eq_filter_eq hf]
    have hpt : ∀ x ∈ db.movies,
        Movie.movieId (if x.movieId == k
          then (⟨mv.movieId, args.title, args.genres⟩ : Movie) else x) = Movie.movieId x := by
      intro x hx
      by_cases h : (x.movieId == k) = true
      · simp only [h, if_true]
        show mv.movieId = x.movieId
        rw [eq_of_beq hmvk, eq_of_beq h]
      · simp [h]
    refine ⟨by rw [hput], ?_, ?_, ?_⟩
    · rw [hput]
      dsimp only
      rw [List.map_map]
      exact List.map_congr_left hpt
    · rw [hput]
      dsimp only
      apply queryOne_eq_filter_eq
      rw [List.filter_map]
      have hcong : db.movies.filter
          ((fun x => x.movieId == k) ∘
            (fun x => if x.movieId == k then (⟨mv.movieId, args.title, args.genres⟩ : Movie) else x)) =
          db.movies.filter (fun x => x.movieId == k) := by
        apply List.filter_congr
        intro a ha
        show (Movie.movieId (if a.movieId == k then _ else a) == k) = (a.movieId == k)
        rw [hpt a ha]
      rw [hcong, hf, List.map_cons, List.map_nil, if_pos hmvk]
    · intro x hx hne
      rw [hput]
      dsimp only
      have hfx := List.mem_map_of_mem
        (fun x => if x.movieId == k then (⟨mv.movieId, args.title, args.genres⟩ : Movie) else x) hx
      simpa [hne] using hfx
  · intro db k req args lk hp hf
    have hlkk : (lk.movieId == k) = true := by
      have hmem : lk ∈ db.links.filter (fun x => x.movieId == k) := by
        rw [hf]
        exact List.mem_singleton_self lk
      exact (List.mem_filter.mp hmem).2
    have hput : LinksItem.put db k req =
        ({ db with links := db.links.map (fun x =>
             if x.movieId == k then ⟨lk.id, lk.movieId, args.imdbId, args.tmdbId⟩ else x) },
         ⟨200, Body.obj (Links.to_dict ⟨lk.id, lk.movieId, args.imdbId, args.tmdbId⟩)⟩) := by
      unfold LinksItem.put
      rw [hp]
      dsimp only
      rw [queryOne_eq_filter_eq hf]
    have hpt : ∀ x ∈ db.links,
        Links.movieId (if x.movieId == k
          then (⟨lk.id, lk.movieId, args.imdbId, args.tmdbId⟩ : Links) else x) = Links.movieId x := by
      intro x hx
      by_cases h : (x.movieId == k) = true
      · simp only [h, if_true]
        show lk.movieId = x.movieId
        rw [eq_of_beq hlkk, eq_of_beq h]
      · simp [h]
    refine ⟨by rw [hput], ?_, ?_, ?_⟩
    · rw [hput]
      dsimp only
      rw [List.map_map]
      exact List.map_congr_left hpt
    · rw [hput]
      dsimp only
      apply queryOne_eq_filter_eq
      rw [List.filter_map]
      have hcong : db.links.filter
          ((fun x => x.movieId == k) ∘
            (fun x => if x.movieId == k then (⟨lk.id, lk.movieId, args.imdbId, args.tmdbId⟩ : Links) else x)) =
          db.links.filter (fun x => x.movieId == k) := by
        apply List.filter_congr
        intro a ha
        show (Links.movieId (if a.movieId == k then _ else a) == k) = (a.movieId == k)
        rw [hpt a ha]
      rw [hcong, hf, List.map_cons, List.map_nil, if_pos hlkk]
    · intro x hx hne
      rw [hput]
      dsimp only
      have hfx := List.mem_map_of_mem
        (fun x => if x.movieId == k then (⟨lk.id, lk.movieId, args.imdbId, args.tmdbId⟩ : Links) else x) hx
      simpa [hne] using hfx

/-- Witness for C10: in `dbTwoMovies`, updating Movie 1 with a body that
carries `movieId = 9` answers with the row still keyed 1, the key column is
untouched, and Movie 2 survives unchanged; likewise the Link keyed by
movie 2 updated with body `movieId = 9` keeps `movieId = 2`. -/
theorem c10_put_never_applies_body_movieId_witness :
    ((MovieItem.put dbTwoMovies 1
        [("movieId", JVal.jInt 9), ("title", JVal.jStr "N"), ("genres", JVal.jStr "M")]).2 =
      ⟨200, Body.obj (Movie.to_dict ⟨1, "N", "M"⟩)⟩) ∧
    ((MovieItem.put dbTwoMovies 1
        [("movieId", JVal.jInt 9), ("title", JVal.jStr "N"), ("genres", JVal.jStr "M")]).1.movies.map
        Movie.movieId = dbTwoMovies.movies.map Movie.movieId) ∧
    ((⟨2, "B", "E"⟩ : Movie) ∈ (MovieItem.put dbTwoMovies 1
        [("movieId", JVal.jInt 9), ("title", JVal.jStr "N"), ("genres", JVal.jStr "M")]).1.movies) ∧
    (queryOne (LinksItem.put dbTwoMovies 2
        [("movieId", JVal.jInt 9), ("imdbId", JVal.jStr "i"), ("tmdbId", JVal.jStr "t")]).1.links
        (fun x => x.movieId == 2) = OneResult.found ⟨1, 2, "i", "t"⟩) :=
  ⟨(c10_put_never_applies_body_movieId.1 dbTwoMovies 1
      [("movieId", JVal.jInt 9), ("title", JVal.jStr "N"), ("genres", JVal.jStr "M")]
      ⟨9, "N", "M"⟩ ⟨1, "A", "D"⟩ rfl rfl).1,
   (c10_put_never_applies_body_movieId.1 dbTwoMovies 1
      [("movieId", JVal.jInt 9), ("title", JVal.jStr "N"), ("genres", JVal.jStr "M")]
      ⟨9, "N", "M"⟩ ⟨1, "A", "D"⟩ rfl rfl).2.1,
   (c10_put_never_applies_body_movieId.1 dbTwoMovies 1
      [("movieId", JVal.jInt 9), ("title", JVal.jStr "N"), ("genres", JVal.jStr "M")]
      ⟨9, "N", "M"⟩ ⟨1, "A", "D"⟩ rfl rfl).2.2.2
     ⟨2, "B", "E"⟩ (by decide) (by decide),
   (c10_put_never_applies_body_movieId.2 dbTwoMovies 2
      [("movieId", JVal.jInt 9), ("imdbId", JVal.jStr "i"), ("tmdbId", JVal.jStr "t")]
      ⟨9, "i", "t"⟩ ⟨1, 2, "x", "y"⟩ rfl rfl).2.2.1⟩
